import Mathlib

/-!
# Verification of the OpenVPN Linux tun client session controller

A shallow embedding of `openvpn/tun/linux/client/tuncli.hpp` (the Session
Controller `TunLinux::Client`, its `ClientConfig` factory, and its stop /
start / push-update lifecycle), together with `openvpn/buffer/safestr.hpp`
(`SafeString`).

The controller's external collaborators (`TunPersistTemplate`,
`TunProp::configure_builder`, `OptionList`, `TunIO`, `BufferAllocated`) are
not part of this repository snapshot; they are modelled from the
specification's contracts (§4.1, §4.2, §6) as explicitly noted on each such
definition.

State-changing operations are explicit state-passing functions over a
`Sys × ClientSt` pair; parent upcalls and collaborator invocations are
recorded in an event trace `Sys.events`, so ordering claims become
equalities between traces.
-/

namespace OpenVPN

/-- Modelled from the spec (§6): a pushed option list is a read-only
key/value lookup used to extract the device name and merge pushed tunnel
properties; it is not otherwise interpreted by the core. -/
abbrev OptList := List (String × String)

/-- Modelled from the spec (§6): first option whose key matches, if any
(the `OptionList::get_ptr` collaborator used by `ClientConfig::load`). -/
def OptList.get_ptr (opt : OptList) (nm : String) : Option (String × String) :=
  opt.find? (fun o => o.1 == nm)

/-- The tunnel-property policy carried by the config (`TunProp::Config`):
the fields the controller reads are the MTU and the layer
(address-family/layer requirement used for persistence compatibility). -/
structure TunPropConfig where
  mtu : Nat
  layer : Nat
deriving DecidableEq, Repr

/-- Session State (`TunProp::State`): assigned IPv4/IPv6 addresses and
gateways (`none` = unspecified), MTU and interface name. -/
structure TunPropState where
  vpn_ip4_addr : Option String
  vpn_ip6_addr : Option String
  vpn_ip4_gw : Option String
  vpn_ip6_gw : Option String
  mtu : Nat
  iface_name : String
deriving DecidableEq, Repr

/-- The fresh Session State built by the `Client` constructor
(`state(new TunProp::State())`): everything unspecified. -/
def TunPropState.init : TunPropState :=
  ⟨none, none, none, none, 0, ""⟩

/-- The compatibility key of a persisted tun session: requested server
address, tunnel properties and pushed options (spec §4.1: compatible iff
same server address, tunnel properties and pushed options). -/
abbrev PersistKey := String × TunPropConfig × OptList

/-- Modelled from the spec (§4.1): the Persistence Store
(`TunPersistTemplate<ScopedFD>`): at most one retained (descriptor,
Session State) resource, the key it was persisted under, and whether a
teardown-capability destructor is attached. -/
structure StoreSt where
  content : Option (Int × TunPropState)
  key : Option PersistKey
  hasDestructor : Bool
deriving DecidableEq, Repr

/-- A freshly constructed store holds nothing. -/
def StoreSt.empty : StoreSt := ⟨none, none, false⟩

/-- Modelled from the spec (§4.1): `use_persisted_tun` returns true iff a
previously retained resource exists and is compatible with the requested
server address, tunnel properties and pushed options. -/
def StoreSt.use_persisted_tun (st : StoreSt) (k : PersistKey) : Bool :=
  st.content.isSome && decide (st.key = some k)

/-- Modelled from the spec (§4.1): `close()` idempotently releases the
underlying resource (running any attached destructor) and invalidates it. -/
def StoreSt.close (_st : StoreSt) : StoreSt := ⟨none, none, false⟩

/-- Modelled from the spec (§4.1): `persist_tun_state` stores a newly
established resource and its Session State for future reuse. -/
def StoreSt.persist_tun_state (st : StoreSt) (sd : Int) (s : TunPropState)
    (k : PersistKey) : StoreSt :=
  ⟨some (sd, s), some k, st.hasDestructor⟩

/-- Modelled from the spec (§4.1): `add_destructor` attaches the
device-setup teardown capability to the store's resource. -/
def StoreSt.add_destructor (st : StoreSt) : StoreSt :=
  { st with hasDestructor := true }

/-- The default MTU applied by `ClientConfig::load` when unset
(`TUN_MTU_DEFAULT`). -/
def TUN_MTU_DEFAULT : Nat := 1500

/-- `TunLinux::ClientConfig`: the factory's immutable-after-load settings.
`tun_persist` is the optional long-term Persistence Store attached to the
factory. -/
structure ClientConfig where
  dev_name : String
  txqueuelen : Nat
  tun_prop : TunPropConfig
  generate_tun_builder_capture_event : Bool
  n_parallel : Nat
  tun_persist : Option StoreSt
deriving DecidableEq, Repr

/-- `ClientConfig::load(opt)`: set a default MTU if unset; fill an empty
`dev_name` from the option list's "dev" option if present. -/
def ClientConfig.load (cfg : ClientConfig) (opt : OptList) : ClientConfig :=
  let cfg1 :=
    if cfg.tun_prop.mtu = 0 then
      { cfg with tun_prop := { cfg.tun_prop with mtu := TUN_MTU_DEFAULT } }
    else cfg
  if cfg1.dev_name.isEmpty then
    match opt.get_ptr "dev" with
    | some dev => { cfg1 with dev_name := dev.2 }
    | none => cfg1
  else cfg1

/-- Observable events: parent upcalls and collaborator invocations, in the
order the controller performs them. -/
inductive Ev where
  | preTunConfig
  | closeStore
  | deriveProps (server : String) (opt : OptList)
  | establishCall (server : String)
  | persistEv
  | addDestructorEv
  | pumpStart (iface : String)
  | pumpStop
  | pumpWrite
  | tunConnected
  | tunError (kind : String) (detail : String)
  | tunRecv
deriving DecidableEq, Repr

/-- The Async I/O Pump handle (`TunImpl` = `Tun<Client*>` bound to a
descriptor): descriptor, interface name (`name()`), and whether it is
running (not yet stopped). -/
structure ImplSt where
  fd : Int
  iface : String
  running : Bool
deriving DecidableEq, Repr

/-- Modelled from the spec (§4.2): the Pump's `write` submits one outbound
packet and returns false if the Pump has already been stopped. -/
def ImplSt.write (i : ImplSt) : Bool := i.running

/-- The client's `tun_persist` smart-pointer slot: empty, aliasing the
factory's long-term store, or owning a short-term store. -/
inductive PersistRef where
  | free
  | longTerm
  | shortTerm (st : StoreSt)
deriving DecidableEq, Repr

/-- The mutable fields of `TunLinux::Client`. -/
structure ClientSt where
  halt : Bool
  impl : Option ImplSt
  persistRef : PersistRef
  state : TunPropState
deriving DecidableEq, Repr

/-- A freshly constructed `Client`: `halt(false)`, no pump, no store
reference, fresh Session State. -/
def ClientSt.init : ClientSt :=
  ⟨false, none, PersistRef.free, TunPropState.init⟩

/-- The world outside one client: the shared factory config (holding the
long-term store, when configured) and the trace of observable events. -/
structure Sys where
  config : ClientConfig
  events : List Ev
deriving DecidableEq, Repr

/-- Dereference the client's store pointer. -/
def readStore (s : Sys) (c : ClientSt) : Option StoreSt :=
  match c.persistRef with
  | .free => none
  | .longTerm => s.config.tun_persist
  | .shortTerm st => some st

/-- Write back through the client's store pointer (a long-term store lives
in the shared config; a short-term store is owned by the client). -/
def writeStore (s : Sys) (c : ClientSt) (st : StoreSt) : Sys × ClientSt :=
  match c.persistRef with
  | .free => (s, c)
  | .longTerm => ({ s with config := { s.config with tun_persist := some st } }, c)
  | .shortTerm _ => (s, { c with persistRef := .shortTerm st })

/-- `Client::stop_()`: if not already halted, set the halted flag, stop the
pump (without destroying it) and release the store reference. -/
def stop_ (s : Sys) (c : ClientSt) : Sys × ClientSt :=
  if c.halt then (s, c)
  else
    match c.impl with
    | some i =>
        ({ s with events := s.events ++ [Ev.pumpStop] },
         { c with halt := true, impl := some { i with running := false },
                  persistRef := .free })
    | none =>
        (s, { c with halt := true, persistRef := .free })

/-- `Client::stop()` delegates to `stop_()`. -/
def stop (s : Sys) (c : ClientSt) : Sys × ClientSt := stop_ s c

/-- The store the controller will consult in `tun_start`: the factory's
long-term store when configured, otherwise a fresh short-term store. -/
def selectRef (s : Sys) : PersistRef :=
  if s.config.tun_persist.isSome then .longTerm else .shortTerm StoreSt.empty

/-- The content of the store selected by `selectRef` (a fresh short-term
store is empty). -/
def selectedStore (s : Sys) : StoreSt :=
  s.config.tun_persist.getD StoreSt.empty

/-- The device-establishment collaborator (spec §6): given capture
properties (server address and pushed options) it yields a descriptor and
interface name, or fails. -/
abbrev Establish := String → OptList → Except String (Int × String)

/-- Modelled from the spec (§4.3 step "Miss", §7): `TunProp::configure_builder`
derives tunnel capture properties from the tunnel-property policy, the
pushed option list and the server address, filling the Session State.
Derivation is fallible — spec §7 names "property derivation failed" as a
`SetupFailed` source — and throws on an ill-formed pushed address option
(an empty address value). -/
def configure_builder (tp : TunPropConfig) (_server : String) (opt : OptList)
    (st : TunPropState) : Except String TunPropState :=
  if ((opt.get_ptr "ifconfig").elim false (fun o => o.2.isEmpty))
      || ((opt.get_ptr "ifconfig-ipv6").elim false (fun o => o.2.isEmpty)) then
    Except.error "tun_prop_error"
  else
    Except.ok
      { st with
        mtu := tp.mtu
        vpn_ip4_addr := ((opt.get_ptr "ifconfig").map (fun o => o.2)).orElse
          (fun _ => st.vpn_ip4_addr)
        vpn_ip6_addr := ((opt.get_ptr "ifconfig-ipv6").map (fun o => o.2)).orElse
          (fun _ => st.vpn_ip6_addr) }

/-- The reuse fast path of `Client::tun_start`: adopt the persisted Session
State and descriptor, start the pump, signal connected. -/
def startHit (s : Sys) (c : ClientSt) : Sys × ClientSt :=
  let store := (readStore s c).getD StoreSt.empty
  let res := store.content.getD (-1, TunPropState.init)
  let c := { c with state := res.2,
                    impl := some ⟨res.1, res.2.iface_name, true⟩ }
  ({ s with events := s.events ++ [Ev.pumpStart res.2.iface_name, Ev.tunConnected] }, c)

/-- The catch handler of `Client::tun_start`: close the Persistence Store
(if referenced), tear partial state down via `stop_()`, and report a
single `TUN_SETUP_FAILED` error with the originating detail message. -/
def startCatch (msg : String) (s : Sys) (c : ClientSt) : Sys × ClientSt :=
  let q := writeStore s c (((readStore s c).getD StoreSt.empty).close)
  let s := { q.1 with events := q.1.events ++ [Ev.closeStore] }
  let r := stop_ s q.2
  ({ r.1 with events := r.1.events ++ [Ev.tunError "TUN_SETUP_FAILED" msg] }, r.2)

/-- The fresh-establishment path of `Client::tun_start` (the else branch of
`use_persisted_tun`, plus the shared pump-start / connected tail and the
catch handler): notify the parent, close stale store content, derive
capture properties (fallible), invoke device establishment (fallible); on
success persist the new (descriptor, state) pair and the teardown
destructor, start the pump and signal connected; a throw from either
fallible step lands in `startCatch`. -/
def startMiss (est : Establish) (opt : OptList) (server : String)
    (key : PersistKey) (s : Sys) (c : ClientSt) : Sys × ClientSt :=
  let s := { s with events := s.events ++ [Ev.preTunConfig] }
  let p := writeStore s c (((readStore s c).getD StoreSt.empty).close)
  let s := { p.1 with events := p.1.events ++ [Ev.closeStore] }
  match configure_builder key.2.1 server opt p.2.state with
  | .error msg => startCatch msg s p.2
  | .ok st1 =>
  let c := { p.2 with state := st1 }
  let s := { s with events := s.events ++ [Ev.deriveProps server opt, Ev.establishCall server] }
  match est server opt with
  | .error msg => startCatch msg s c
  | .ok sd =>
      let c := { c with state := { c.state with iface_name := sd.2 } }
      let q := writeStore s c
        (((readStore s c).getD StoreSt.empty).persist_tun_state sd.1 c.state key)
      let s := { q.1 with events := q.1.events ++ [Ev.persistEv] }
      let r := writeStore s q.2 (((readStore s q.2).getD StoreSt.empty).add_destructor)
      let s := { r.1 with events := r.1.events ++ [Ev.addDestructorEv] }
      ({ s with events := s.events ++ [Ev.pumpStart sd.2, Ev.tunConnected] },
       { r.2 with impl := some ⟨sd.1, sd.2, true⟩ })

/-- `Client::tun_start(opt, transcli, _)`: no-op when a pump already
exists; otherwise clear `halt`, select the persistence scope, probe the
store for a compatible persisted session and take the hit or miss path. -/
def tun_start (est : Establish) (opt : OptList) (server : String)
    (s : Sys) (c : ClientSt) : Sys × ClientSt :=
  match c.impl with
  | some _ => (s, c)
  | none =>
      let c1 : ClientSt := { c with halt := false, persistRef := selectRef s }
      let key : PersistKey := (server, s.config.tun_prop, opt)
      if ((readStore s c1).getD StoreSt.empty).use_persisted_tun key then
        startHit s c1
      else
        startMiss est opt server key s c1

/-- `Client::send(buf)`: delegate to the pump's `write` when the pump
exists, otherwise return false with no effect. -/
def send (s : Sys) (c : ClientSt) : Sys × Bool :=
  match c.impl with
  | some i => ({ s with events := s.events ++ [Ev.pumpWrite] }, i.write)
  | none => (s, false)

/-- `Client::tun_send(buf)` delegates to `send`. -/
def tun_send (s : Sys) (c : ClientSt) : Sys × Bool := send s c

/-- `Client::tun_name()`: the pump's interface name, or the sentinel. -/
def tun_name (c : ClientSt) : String :=
  match c.impl with
  | some i => i.iface
  | none => "UNDEF_TUN"

/-- `Client::vpn_ip4()`: the assigned IPv4 address, or "" if unspecified. -/
def vpn_ip4 (c : ClientSt) : String :=
  match c.state.vpn_ip4_addr with
  | some a => a
  | none => ""

/-- `Client::vpn_ip6()`: the assigned IPv6 address, or "" if unspecified. -/
def vpn_ip6 (c : ClientSt) : String :=
  match c.state.vpn_ip6_addr with
  | some a => a
  | none => ""

/-- `Client::vpn_gw4()`: the IPv4 gateway, or "" if unspecified. -/
def vpn_gw4 (c : ClientSt) : String :=
  match c.state.vpn_ip4_gw with
  | some a => a
  | none => ""

/-- `Client::vpn_gw6()`: the IPv6 gateway, or "" if unspecified. -/
def vpn_gw6 (c : ClientSt) : String :=
  match c.state.vpn_ip6_gw with
  | some a => a
  | none => ""

/-- `Client::vpn_mtu()`: the Session State's MTU. -/
def vpn_mtu (c : ClientSt) : Nat := c.state.mtu

/-- A task posted to the single-threaded event loop: an outstanding pump
read completion, or the deferred `tun_start` continuation. -/
inductive Task where
  | readCompletion
  | startTun (opt : OptList) (server : String)
deriving DecidableEq, Repr

/-- Run one event-loop task: a read completion delivers `tun_recv` to the
parent (`Client::tun_read_handler`); the deferred continuation invokes
`tun_start`. -/
def runTask (est : Establish) (s : Sys) (c : ClientSt) : Task → Sys × ClientSt
  | .readCompletion => ({ s with events := s.events ++ [Ev.tunRecv] }, c)
  | .startTun opt server => tun_start est opt server s c

/-- Run the event-loop queue in FIFO order. -/
def runQueue (est : Establish) : List Task → Sys → ClientSt → Sys × ClientSt
  | [], s, c => (s, c)
  | t :: ts, s, c =>
      let p := runTask est s c t
      runQueue est ts p.1 p.2

/-- `Client::apply_push_update(opt, transcli)`: `stop_()`, drop the pump,
and post the `tun_start` continuation to the event loop (behind every task
already outstanding). -/
def apply_push_update (opt : OptList) (server : String)
    (s : Sys) (c : ClientSt) (queue : List Task) :
    Sys × ClientSt × List Task :=
  let p := stop_ s c
  let c := { p.2 with impl := none }
  (p.1, c, queue ++ [Task.startTun opt server])

/-! ## SafeString (`openvpn/buffer/safestr.hpp`)

C++ byte strings are modelled as `List Char` (one `Char` per byte). -/

/-- `std::numeric_limits<size_t>::max()`. -/
def SIZE_MAX : Nat := 2 ^ 64 - 1

/-- Modelled from the spec (§1, out-of-scope collaborator): the generic
growable byte buffer (`BufferAllocated` with `DESTRUCT_ZERO | GROW`):
`write` appends bytes after the current size, `size` counts the bytes
written, `set_trailer` places a terminator beyond `size` without changing
it, and `buf_to_string` reads back exactly the `size` bytes. -/
structure BufferAllocated where
  bytes : List Char
  trailerSet : Bool
deriving DecidableEq, Repr

/-- A default-constructed (undefined) buffer. -/
def BufferAllocated.empty : BufferAllocated := ⟨[], false⟩

/-- Modelled from the spec: `BufferAllocated(capacity, flags)` allocates an
empty buffer (capacity is immaterial under the GROW flag). -/
def BufferAllocated.alloc (_capacity : Nat) : BufferAllocated := ⟨[], false⟩

/-- Modelled from the spec: `write` appends the given bytes. -/
def BufferAllocated.write (b : BufferAllocated) (d : List Char) : BufferAllocated :=
  { b with bytes := b.bytes ++ d }

/-- Modelled from the spec: `size()` is the number of bytes written. -/
def BufferAllocated.size (b : BufferAllocated) : Nat := b.bytes.length

/-- Modelled from the spec: `set_trailer(0)` places a NUL beyond `size`. -/
def BufferAllocated.set_trailer (b : BufferAllocated) : BufferAllocated :=
  { b with trailerSet := true }

/-- Modelled from the spec: `buf_to_string` reads back the `size()` bytes. -/
def buf_to_string (b : BufferAllocated) : List Char := b.bytes

/-- `openvpn::SafeString`: a string-like wrapper over a zero-on-destruct
buffer. -/
structure SafeString where
  data : BufferAllocated
deriving DecidableEq, Repr

/-- `SafeString(const char* str, size_t size)`: allocate `size + 1` bytes,
throw `buffer_overflow` when `size` is `SIZE_MAX`, write the `size` bytes
and set the NUL trailer. -/
def SafeString.ofSized (str : List Char) (size : Nat) : Except String SafeString :=
  if size = SIZE_MAX then .error "buffer_overflow"
  else .ok ⟨((BufferAllocated.alloc (size + 1)).write (str.take size)).set_trailer⟩

/-- `SafeString(const std::string& str)`: delegate with
`(str.c_str(), str.length())`. -/
def SafeString.ofString (s : List Char) : Except String SafeString :=
  SafeString.ofSized s s.length

/-- `SafeString::to_string()` is `buf_to_string(data)`. -/
def SafeString.to_string (ss : SafeString) : List Char := buf_to_string ss.data

/-- `SafeString::length()` is `data.size()`. -/
def SafeString.length (ss : SafeString) : Nat := ss.data.size

/-! ## Concrete scenario of the reconnect-reuse property

The spec's reconnect scenario: long-term store configured on the factory,
device establishment yields descriptor 6 and interface "tun0"; a first
controller does a fresh `start()` then `stop()`; a successor controller
from the same factory (spec §2: the factory produces a new Session
Controller per connection attempt; §3: the long-term resource survives
across Controllers) does the second `start()` with the same server
address. -/

/-- A device-establishment collaborator yielding descriptor 6 and
interface "tun0". -/
def estTun0 : Establish := fun _ _ => .ok (6, "tun0")

/-- Factory config with a (still empty) long-term Persistence Store. -/
def cfgLongTerm : ClientConfig :=
  { dev_name := "", txqueuelen := 200, tun_prop := ⟨1500, 0⟩,
    generate_tun_builder_capture_event := false, n_parallel := 8,
    tun_persist := some StoreSt.empty }

/-- Initial world: long-term factory config, empty trace. -/
def sysLT0 : Sys := ⟨cfgLongTerm, []⟩

/-- First controller: fresh `start()` against server 203.0.113.9. -/
def reuseRun1 : Sys × ClientSt :=
  tun_start estTun0 [] "203.0.113.9" sysLT0 ClientSt.init

/-- Then `stop()` on the first controller. -/
def reuseRun2 : Sys × ClientSt := stop reuseRun1.1 reuseRun1.2

/-- Second `start()` with the same server address, on a successor
controller created by the same factory. -/
def reuseRun3 : Sys × ClientSt :=
  tun_start estTun0 [] "203.0.113.9" reuseRun2.1 ClientSt.init

/-- Count of device-establishment invocations in a trace. -/
def countEstablish (evs : List Ev) : Nat :=
  evs.countP (fun e => match e with | Ev.establishCall _ => true | _ => false)

/-- Count of `tun_connected` upcalls in a trace. -/
def countConnected (evs : List Ev) : Nat :=
  evs.countP (fun e => match e with | Ev.tunConnected => true | _ => false)

/-- Count of `tun_error` upcalls in a trace. -/
def countError (evs : List Ev) : Nat :=
  evs.countP (fun e => match e with | Ev.tunError _ _ => true | _ => false)

/-! ## Helper lemmas -/

lemma stop_halt (s : Sys) (c : ClientSt) : (stop_ s c).2.halt = true := by
  unfold stop_
  split
  · next h => simpa using h
  · cases c.impl <;> simp

lemma stop_counts (s : Sys) (c : ClientSt) :
    countError (stop_ s c).1.events = countError s.events ∧
    countConnected (stop_ s c).1.events = countConnected s.events ∧
    countEstablish (stop_ s c).1.events = countEstablish s.events := by
  unfold stop_
  split
  · simp
  · cases c.impl <;>
      simp [countError, countConnected, countEstablish, List.countP_append]

lemma stop_of_halt (s : Sys) (c : ClientSt) (h : c.halt = true) :
    stop_ s c = (s, c) := by
  unfold stop_
  rw [if_pos h]

lemma runQueue_snoc (est : Establish) (q : List Task) (t : Task)
    (s : Sys) (c : ClientSt) :
    runQueue est (q ++ [t]) s c
      = runTask est (runQueue est q s c).1 (runQueue est q s c).2 t := by
  induction q generalizing s c with
  | nil => rfl
  | cons hd tl ih => simp [runQueue, ih]

/-! ## Claim theorems -/

/-- C6: `stop()` is idempotent: a second `stop()` in succession is a no-op
(identical observable state), `stop()` emits no `tun_error` or
`tun_connected` upcall, and the first call on a non-halted client sets the
halted flag and releases the Persistence Store reference. -/
theorem stop_idempotent (s : Sys) (c : ClientSt) :
    stop (stop s c).1 (stop s c).2 = stop s c ∧
    countError (stop s c).1.events = countError s.events ∧
    countConnected (stop s c).1.events = countConnected s.events ∧
    (c.halt = false →
      (stop s c).2.halt = true ∧ (stop s c).2.persistRef = PersistRef.free) := by
  refine ⟨?_, (stop_counts s c).1, (stop_counts s c).2.1, ?_⟩
  · exact (stop_of_halt (stop_ s c).1 (stop_ s c).2 (stop_halt s c)).trans rfl
  · intro hh
    unfold stop stop_
    rw [if_neg (by simp [hh])]
    cases c.impl <;> simp

/-- C6 witness: double `stop()` on a concrete fresh client equals a single
`stop()`, which halts the client and frees its store reference. -/
theorem stop_idempotent_witness :
    stop (stop sysLT0 ClientSt.init).1 (stop sysLT0 ClientSt.init).2
      = stop sysLT0 ClientSt.init ∧
    (stop sysLT0 ClientSt.init).2.halt = true ∧
    (stop sysLT0 ClientSt.init).2.persistRef = PersistRef.free :=
  ⟨(stop_idempotent sysLT0 ClientSt.init).1,
   ((stop_idempotent sysLT0 ClientSt.init).2.2.2 rfl).1,
   ((stop_idempotent sysLT0 ClientSt.init).2.2.2 rfl).2⟩

/-- C7: in `Idle`, every Session State accessor returns its defined
empty/sentinel value and never fails: `tun_name()` returns the sentinel
when no pump exists, each address and gateway accessor returns the empty
string when the corresponding address is unspecified, and `vpn_mtu()`
returns the Session State MTU (0 on a fresh client). -/
theorem idle_accessor_sentinels (c : ClientSt) :
    (c.impl = none → tun_name c = "UNDEF_TUN") ∧
    (c.state.vpn_ip4_addr = none → vpn_ip4 c = "") ∧
    (c.state.vpn_ip6_addr = none → vpn_ip6 c = "") ∧
    (c.state.vpn_ip4_gw = none → vpn_gw4 c = "") ∧
    (c.state.vpn_ip6_gw = none → vpn_gw6 c = "") ∧
    (c.state = TunPropState.init → vpn_mtu c = 0) := by
  refine ⟨?_, ?_, ?_, ?_, ?_, ?_⟩ <;> intro h <;>
    simp [tun_name, vpn_ip4, vpn_ip6, vpn_gw4, vpn_gw6, vpn_mtu, h,
          TunPropState.init]

/-- C7 witness: all accessor sentinels on a concrete fresh (Idle) client. -/
theorem idle_accessor_sentinels_witness :
    tun_name ClientSt.init = "UNDEF_TUN" ∧
    vpn_ip4 ClientSt.init = "" ∧
    vpn_ip6 ClientSt.init = "" ∧
    vpn_gw4 ClientSt.init = "" ∧
    vpn_gw6 ClientSt.init = "" ∧
    vpn_mtu ClientSt.init = 0 :=
  ⟨(idle_accessor_sentinels ClientSt.init).1 rfl,
   (idle_accessor_sentinels ClientSt.init).2.1 rfl,
   (idle_accessor_sentinels ClientSt.init).2.2.1 rfl,
   (idle_accessor_sentinels ClientSt.init).2.2.2.1 rfl,
   (idle_accessor_sentinels ClientSt.init).2.2.2.2.1 rfl,
   (idle_accessor_sentinels ClientSt.init).2.2.2.2.2 rfl⟩

/-- C8: `tun_send` delegates to `send`, which calls the Pump's `write`
when a Pump exists and returns false with no side effects when it does
not. -/
theorem tun_send_delegates (s : Sys) (c : ClientSt) :
    tun_send s c = send s c ∧
    (c.impl = none → tun_send s c = (s, false)) ∧
    (∀ i, c.impl = some i →
      tun_send s c = ({ s with events := s.events ++ [Ev.pumpWrite] }, i.write)) := by
  refine ⟨rfl, ?_, ?_⟩
  · intro h
    simp [tun_send, send, h]
  · intro i h
    simp [tun_send, send, h]

/-- C8 witness: a disconnected send on a concrete Idle client returns
false and leaves the world unchanged. -/
theorem tun_send_delegates_witness :
    tun_send sysLT0 ClientSt.init = (sysLT0, false) :=
  (tun_send_delegates sysLT0 ClientSt.init).2.1 rfl

/-- C2: whenever the Persistence Store's `use_persisted_tun` probe
succeeds, `tun_start` adopts the persisted Session State and descriptor,
makes no device-establishment call and no `tun_pre_tun_config` upcall
(the events added are exactly pump start and `tun_connected`), and reaches
Connected. -/
theorem tun_start_persisted_hit (est : Establish) (opt : OptList)
    (server : String) (s : Sys) (c : ClientSt)
    (h1 : c.impl = none)
    (h2 : (selectedStore s).use_persisted_tun (server, s.config.tun_prop, opt)
            = true) :
    (tun_start est opt server s c).1.events
      = s.events
        ++ [Ev.pumpStart ((selectedStore s).content.getD
              (-1, TunPropState.init)).2.iface_name,
            Ev.tunConnected] ∧
    (tun_start est opt server s c).2.state
      = ((selectedStore s).content.getD (-1, TunPropState.init)).2 ∧
    (tun_start est opt server s c).2.impl
      = some ⟨((selectedStore s).content.getD (-1, TunPropState.init)).1,
              ((selectedStore s).content.getD
                (-1, TunPropState.init)).2.iface_name,
              true⟩ := by
  obtain ⟨cfg, evs⟩ := s
  obtain ⟨dn, txq, tp, gen, np, tpers⟩ := cfg
  obtain ⟨ch, ci, cp, cs⟩ := c
  simp only at h1
  subst h1
  cases tpers with
  | none =>
      exfalso
      simp [selectedStore, StoreSt.use_persisted_tun, StoreSt.empty] at h2
  | some st =>
      simp only [selectedStore, Option.getD] at h2 ⊢
      simp [tun_start, selectRef, readStore, startHit, h2, Option.getD]

/-- C2 witness: the second `start()` of the reconnect scenario hits the
persisted session and takes the reuse fast path. -/
theorem tun_start_persisted_hit_witness :
    (tun_start estTun0 [] "203.0.113.9" reuseRun2.1 ClientSt.init).1.events
      = reuseRun2.1.events
        ++ [Ev.pumpStart ((selectedStore reuseRun2.1).content.getD
              (-1, TunPropState.init)).2.iface_name,
            Ev.tunConnected] ∧
    (tun_start estTun0 [] "203.0.113.9" reuseRun2.1 ClientSt.init).2.state
      = ((selectedStore reuseRun2.1).content.getD (-1, TunPropState.init)).2 ∧
    (tun_start estTun0 [] "203.0.113.9" reuseRun2.1 ClientSt.init).2.impl
      = some ⟨((selectedStore reuseRun2.1).content.getD
                (-1, TunPropState.init)).1,
              ((selectedStore reuseRun2.1).content.getD
                (-1, TunPropState.init)).2.iface_name,
              true⟩ :=
  tun_start_persisted_hit estTun0 [] "203.0.113.9" reuseRun2.1 ClientSt.init
    rfl (by decide)

/-- C3: whenever the `use_persisted_tun` probe fails, `tun_start` performs,
in this order: the parent's `tun_pre_tun_config` hook, `close()` on the
store, derivation of the capture properties, the device-establishment
call, `persist_tun_state` of the new (descriptor, state) pair and
`add_destructor` of the teardown capability — so `close()` precedes
establishment — and then starts the pump and signals connected. -/
theorem tun_start_fresh_establish (est : Establish) (opt : OptList)
    (server : String) (s : Sys) (c : ClientSt) (sd : Int) (iface : String)
    (st1 : TunPropState)
    (h1 : c.impl = none)
    (h2 : (selectedStore s).use_persisted_tun (server, s.config.tun_prop, opt)
            = false)
    (hd : configure_builder s.config.tun_prop server opt c.state
            = Except.ok st1)
    (h3 : est server opt = .ok (sd, iface)) :
    (tun_start est opt server s c).1.events
      = s.events
        ++ [Ev.preTunConfig, Ev.closeStore, Ev.deriveProps server opt,
            Ev.establishCall server, Ev.persistEv, Ev.addDestructorEv,
            Ev.pumpStart iface, Ev.tunConnected] ∧
    (tun_start est opt server s c).2.impl = some ⟨sd, iface, true⟩ := by
  obtain ⟨cfg, evs⟩ := s
  obtain ⟨dn, txq, tp, gen, np, tpers⟩ := cfg
  obtain ⟨ch, ci, cp, cs⟩ := c
  simp only at h1
  subst h1
  simp only at hd
  cases tpers with
  | none =>
      simp only [selectedStore, Option.getD] at h2
      simp [tun_start, selectRef, readStore, startMiss, writeStore, h2, hd, h3]
  | some st =>
      simp only [selectedStore, Option.getD] at h2
      simp [tun_start, selectRef, readStore, startMiss, writeStore, h2, hd, h3]

/-- C3 witness: a fresh `start()` against an empty long-term store
performs the miss-path sequence with `close()` before establishment. -/
theorem tun_start_fresh_establish_witness :
    (tun_start estTun0 [] "203.0.113.9" sysLT0 ClientSt.init).1.events
      = sysLT0.events
        ++ [Ev.preTunConfig, Ev.closeStore, Ev.deriveProps "203.0.113.9" [],
            Ev.establishCall "203.0.113.9", Ev.persistEv, Ev.addDestructorEv,
            Ev.pumpStart "tun0", Ev.tunConnected] ∧
    (tun_start estTun0 [] "203.0.113.9" sysLT0 ClientSt.init).2.impl
      = some ⟨6, "tun0", true⟩ :=
  tun_start_fresh_establish estTun0 [] "203.0.113.9" sysLT0 ClientSt.init
    6 "tun0" ⟨none, none, none, none, 1500, ""⟩ rfl (by decide) rfl rfl

/-- A device-establishment collaborator that fails. -/
def estFail : Establish := fun _ _ => .error "tun open failed"

/-- C5: if any fallible step of `tun_start`'s establishment path throws —
property derivation (`configure_builder`) or device establishment — the
controller closes the Persistence Store, tears partial state down to Idle
via `stop()` (halted, no pump, store reference released) and reports
exactly one `tun_error` upcall of kind `TUN_SETUP_FAILED` carrying the
originating detail message; `tun_connected` is not invoked for the failed
attempt. -/
theorem tun_start_setup_failure (est : Establish) (opt : OptList)
    (server : String) (s : Sys) (c : ClientSt) (msg : String)
    (h1 : c.impl = none)
    (h2 : (selectedStore s).use_persisted_tun (server, s.config.tun_prop, opt)
            = false)
    (h3 : configure_builder s.config.tun_prop server opt c.state
            = Except.error msg
          ∨ ∃ st1, configure_builder s.config.tun_prop server opt c.state
              = Except.ok st1 ∧ est server opt = Except.error msg) :
    ((tun_start est opt server s c).1.events
        = s.events
          ++ [Ev.preTunConfig, Ev.closeStore, Ev.closeStore,
              Ev.tunError "TUN_SETUP_FAILED" msg]
     ∨ (tun_start est opt server s c).1.events
        = s.events
          ++ [Ev.preTunConfig, Ev.closeStore, Ev.deriveProps server opt,
              Ev.establishCall server, Ev.closeStore,
              Ev.tunError "TUN_SETUP_FAILED" msg]) ∧
    countError (tun_start est opt server s c).1.events
      = countError s.events + 1 ∧
    countConnected (tun_start est opt server s c).1.events
      = countConnected s.events ∧
    (tun_start est opt server s c).2.halt = true ∧
    (tun_start est opt server s c).2.impl = none ∧
    (tun_start est opt server s c).2.persistRef = PersistRef.free ∧
    (tun_start est opt server s c).1.config.tun_persist
      = s.config.tun_persist.map (fun _ => StoreSt.empty) := by
  obtain ⟨cfg, evs⟩ := s
  obtain ⟨dn, txq, tp, gen, np, tpers⟩ := cfg
  obtain ⟨ch, ci, cp, cs⟩ := c
  simp only at h1
  subst h1
  simp only at h3
  rcases h3 with hd | ⟨st1, hd, he⟩
  · cases tpers with
    | none =>
        simp [tun_start, selectRef, readStore, startMiss, startCatch,
              writeStore, stop_, StoreSt.use_persisted_tun, StoreSt.close,
              StoreSt.empty, hd, countError, countConnected,
              List.countP_append]
    | some st =>
        simp only [selectedStore, Option.getD] at h2
        simp [tun_start, selectRef, readStore, startMiss, startCatch,
              writeStore, stop_, StoreSt.close, StoreSt.empty, h2, hd,
              countError, countConnected, List.countP_append]
  · cases tpers with
    | none =>
        simp [tun_start, selectRef, readStore, startMiss, startCatch,
              writeStore, stop_, StoreSt.use_persisted_tun, StoreSt.close,
              StoreSt.empty, hd, he, countError, countConnected,
              List.countP_append]
    | some st =>
        simp only [selectedStore, Option.getD] at h2
        simp [tun_start, selectRef, readStore, startMiss, startCatch,
              writeStore, stop_, StoreSt.close, StoreSt.empty, h2, hd, he,
              countError, countConnected, List.countP_append]

/-- C5 witness: both throwing steps at concrete inputs — an ill-formed
pushed address option failing property derivation, and a failing device
establishment — each yield exactly one `TUN_SETUP_FAILED` upcall and a
halted Idle client with the store closed. -/
theorem tun_start_setup_failure_witness :
    (((tun_start estTun0 [("ifconfig", "")] "203.0.113.9" sysLT0
          ClientSt.init).1.events
        = sysLT0.events
          ++ [Ev.preTunConfig, Ev.closeStore, Ev.closeStore,
              Ev.tunError "TUN_SETUP_FAILED" "tun_prop_error"]
      ∨ (tun_start estTun0 [("ifconfig", "")] "203.0.113.9" sysLT0
          ClientSt.init).1.events
        = sysLT0.events
          ++ [Ev.preTunConfig, Ev.closeStore,
              Ev.deriveProps "203.0.113.9" [("ifconfig", "")],
              Ev.establishCall "203.0.113.9", Ev.closeStore,
              Ev.tunError "TUN_SETUP_FAILED" "tun_prop_error"]) ∧
     countError (tun_start estTun0 [("ifconfig", "")] "203.0.113.9" sysLT0
          ClientSt.init).1.events
       = countError sysLT0.events + 1 ∧
     countConnected (tun_start estTun0 [("ifconfig", "")] "203.0.113.9" sysLT0
          ClientSt.init).1.events
       = countConnected sysLT0.events ∧
     (tun_start estTun0 [("ifconfig", "")] "203.0.113.9" sysLT0
          ClientSt.init).2.halt = true ∧
     (tun_start estTun0 [("ifconfig", "")] "203.0.113.9" sysLT0
          ClientSt.init).2.impl = none ∧
     (tun_start estTun0 [("ifconfig", "")] "203.0.113.9" sysLT0
          ClientSt.init).2.persistRef = PersistRef.free ∧
     (tun_start estTun0 [("ifconfig", "")] "203.0.113.9" sysLT0
          ClientSt.init).1.config.tun_persist
       = sysLT0.config.tun_persist.map (fun _ => StoreSt.empty)) ∧
    (((tun_start estFail [] "203.0.113.9" sysLT0 ClientSt.init).1.events
        = sysLT0.events
          ++ [Ev.preTunConfig, Ev.closeStore, Ev.closeStore,
              Ev.tunError "TUN_SETUP_FAILED" "tun open failed"]
      ∨ (tun_start estFail [] "203.0.113.9" sysLT0 ClientSt.init).1.events
        = sysLT0.events
          ++ [Ev.preTunConfig, Ev.closeStore, Ev.deriveProps "203.0.113.9" [],
              Ev.establishCall "203.0.113.9", Ev.closeStore,
              Ev.tunError "TUN_SETUP_FAILED" "tun open failed"]) ∧
     countError (tun_start estFail [] "203.0.113.9" sysLT0
          ClientSt.init).1.events
       = countError sysLT0.events + 1 ∧
     countConnected (tun_start estFail [] "203.0.113.9" sysLT0
          ClientSt.init).1.events
       = countConnected sysLT0.events ∧
     (tun_start estFail [] "203.0.113.9" sysLT0 ClientSt.init).2.halt = true ∧
     (tun_start estFail [] "203.0.113.9" sysLT0 ClientSt.init).2.impl = none ∧
     (tun_start estFail [] "203.0.113.9" sysLT0 ClientSt.init).2.persistRef
       = PersistRef.free ∧
     (tun_start estFail [] "203.0.113.9" sysLT0
          ClientSt.init).1.config.tun_persist
       = sysLT0.config.tun_persist.map (fun _ => StoreSt.empty)) :=
  ⟨tun_start_setup_failure estTun0 [("ifconfig", "")] "203.0.113.9" sysLT0
      ClientSt.init "tun_prop_error" rfl (by decide) (Or.inl rfl),
   tun_start_setup_failure estFail [] "203.0.113.9" sysLT0 ClientSt.init
      "tun open failed" rfl (by decide)
      (Or.inr ⟨⟨none, none, none, none, 1500, ""⟩, rfl, rfl⟩)⟩

/-- C1: in the reconnect-reuse scenario (fresh `start()` establishing
descriptor 6 / "tun0", `stop()` with the long-term store configured, then
a second `start()` with the same server address on the successor
controller from the same factory), establishment was called exactly once
during the first start, the second start adds only pump-start and
`tun_connected` events (device establishment is not invoked again), and
`tun_name()` again returns "tun0". -/
theorem reconnect_reuse_no_second_establish :
    countEstablish reuseRun1.1.events = 1 ∧
    tun_name reuseRun1.2 = "tun0" ∧
    reuseRun3.1.events
      = reuseRun1.1.events
        ++ [Ev.pumpStop, Ev.pumpStart "tun0", Ev.tunConnected] ∧
    countEstablish reuseRun3.1.events = 1 ∧
    countConnected reuseRun3.1.events = 2 ∧
    tun_name reuseRun3.2 = "tun0" := by
  refine ⟨?_, ?_, ?_, ?_, ?_, ?_⟩ <;> rfl

/-- C4: `apply_push_update` stops the pump first (the client comes out
halted with no pump and no new establishment or connected events), and
only schedules the subsequent `tun_start` as a continuation posted behind
every event-loop task already outstanding, so that running the queue in
FIFO order performs the whole drained queue before the establishment
path. -/
theorem apply_push_update_defers_start (opt : OptList) (server : String)
    (s : Sys) (c : ClientSt) (queue : List Task) :
    (apply_push_update opt server s c queue).2.2
      = queue ++ [Task.startTun opt server] ∧
    countEstablish (apply_push_update opt server s c queue).1.events
      = countEstablish s.events ∧
    countConnected (apply_push_update opt server s c queue).1.events
      = countConnected s.events ∧
    (apply_push_update opt server s c queue).2.1.impl = none ∧
    (apply_push_update opt server s c queue).2.1.halt = true ∧
    ∀ est s0 c0,
      runQueue est (apply_push_update opt server s c queue).2.2 s0 c0
        = tun_start est opt server (runQueue est queue s0 c0).1
            (runQueue est queue s0 c0).2 := by
  refine ⟨rfl, (stop_counts s c).2.2, (stop_counts s c).2.1, rfl,
          stop_halt s c, ?_⟩
  intro est s0 c0
  rw [show (apply_push_update opt server s c queue).2.2
        = queue ++ [Task.startTun opt server] from rfl,
      runQueue_snoc]
  rfl

/-- C9: `ClientConfig::load` sets the MTU to the default exactly when it
was unset, fills the device name from the option list's "dev" option
exactly when it was empty and such an option exists, and modifies no
other configuration field. -/
theorem load_merges_config (cfg : ClientConfig) (opt : OptList) :
    (cfg.load opt).tun_prop.mtu
      = (if cfg.tun_prop.mtu = 0 then TUN_MTU_DEFAULT else cfg.tun_prop.mtu) ∧
    (cfg.load opt).dev_name
      = (if cfg.dev_name.isEmpty then
           match opt.get_ptr "dev" with
           | some dev => dev.2
           | none => cfg.dev_name
         else cfg.dev_name) ∧
    (cfg.load opt).tun_prop.layer = cfg.tun_prop.layer ∧
    (cfg.load opt).txqueuelen = cfg.txqueuelen ∧
    (cfg.load opt).generate_tun_builder_capture_event
      = cfg.generate_tun_builder_capture_event ∧
    (cfg.load opt).n_parallel = cfg.n_parallel ∧
    (cfg.load opt).tun_persist = cfg.tun_persist := by
  unfold ClientConfig.load
  split
  · split
    · split <;> simp_all
    · split <;> simp_all
  · split
    · split <;> simp_all
    · split <;> simp_all

/-- C10: constructing a `SafeString` from any string shorter than
`SIZE_MAX` succeeds, and `to_string()` / `length()` round-trip the
original string and its length. -/
theorem safeString_roundtrip (s : List Char) (h : s.length < SIZE_MAX) :
    ∃ ss : SafeString, SafeString.ofString s = Except.ok ss ∧
      ss.to_string = s ∧ ss.length = s.length := by
  refine ⟨⟨⟨s, true⟩⟩, ?_, rfl, rfl⟩
  unfold SafeString.ofString SafeString.ofSized
  rw [if_neg (Nat.ne_of_lt h)]
  simp [BufferAllocated.alloc, BufferAllocated.write, BufferAllocated.set_trailer]

/-- C10 witness: the round trip at the concrete string "abc". -/
theorem safeString_roundtrip_witness :
    ∃ ss : SafeString,
      SafeString.ofString ['a', 'b', 'c'] = Except.ok ss ∧
      ss.to_string = ['a', 'b', 'c'] ∧ ss.length = 3 :=
  safeString_roundtrip ['a', 'b', 'c'] (by decide)

end OpenVPN
